import Mathlib

/-!
Shallow embedding of the edpicker-betteraskprompt repository, covering the
tag-generation route (server/routes/tags.ts), the analyze route
(server/routes/gemini.ts), the Express app assembly (server/index.ts), the
client smart-tag service (src/services/smart-tag.service.ts) and the client
prompt-builder component (src/components/prompt-builder/prompt-builder.component.ts).
JavaScript strings become Lean String, JS string falsiness (null/undefined or
empty) is modelled explicitly on Option String, and fallible steps are passed
in as explicit outcome values.
-/

/-- JS falsiness of a possibly-absent string field: absent (null/undefined)
or the empty string. -/
def strFalsy : Option String → Bool
  | none => true
  | some s => s == ""

/-- Request body of POST /api/tags/generate as destructured in tags.ts line 37:
topic, intent, persona, stage plus the selectedTags/visibleTags arrays
(defaulted to [] by the destructuring). -/
structure TagRequest where
  topic : Option String
  intent : Option String
  persona : Option String
  stage : Option Nat
  selectedTags : List String
  visibleTags : List String
deriving DecidableEq

/-- The five category arrays of the JSON object the model is asked to return
(tags.ts responseSchema, lines 83-93). A field is none when the parsed value
is absent or not an array (validateTags then yields []). -/
structure ParsedGroups where
  personaStyle : Option (List String)
  addContext : Option (List String)
  taskInstruction : Option (List String)
  formatConstraints : Option (List String)
  reasoningHelp : Option (List String)
deriving DecidableEq

/-- Outcome of the Gateway interaction (genAI.models.generateContent followed
by JSON.parse): either some thrown error (network, service, malformed JSON),
or the parsed grouped object. -/
inductive GatewayOutcome where
  | err : String → GatewayOutcome
  | ok : ParsedGroups → GatewayOutcome
deriving DecidableEq

/-- Characters of a string with leading and trailing whitespace removed, the
behaviour of JS String.prototype.trim on the character level. -/
def trimChars (l : List Char) : List Char :=
  ((l.dropWhile Char.isWhitespace).reverse.dropWhile Char.isWhitespace).reverse

/-- Split a character list at every whitespace character (runs of whitespace
produce empty segments, which callers filter out, matching a /\s+/ split of a
trimmed string). -/
def splitWsChars : List Char → List Char → List (List Char)
  | [], acc => [acc.reverse]
  | c :: cs, acc =>
    if c.isWhitespace then acc.reverse :: splitWsChars cs []
    else splitWsChars cs (c :: acc)

/-- Word count as computed in tags.ts line 119: tag.trim().split(/\s+/).length.
On an all-whitespace string the JS split yields [""] of length 1; otherwise it
yields the nonempty whitespace-separated words. -/
def jsWordCount (s : String) : Nat :=
  let t := trimChars s.toList
  if t.isEmpty then 1
  else ((splitWsChars t []).filter (fun w => !w.isEmpty)).length

/-- validateTags of tags.ts lines 116-122: non-arrays give [], otherwise keep
exactly the entries whose word count lies in [3,4]. -/
def validateTags (tags : Option (List String)) : List String :=
  match tags with
  | none => []
  | some ts => ts.filter (fun tag => decide (3 ≤ jsWordCount tag ∧ jsWordCount tag ≤ 4))

/-- The validated category groups (tags.ts lines 124-130). -/
structure TagGroups where
  personaStyle : List String
  addContext : List String
  taskInstruction : List String
  formatConstraints : List String
  reasoningHelp : List String
deriving DecidableEq

/-- HTTP response of the tags route: res.status(...).json(...) carries a
status code and the JSON body fields used by the handler. Fields the handler
omits in a given branch are modelled as none. -/
structure TagGenResponse where
  status : Nat
  success : Bool
  tags : List String
  groups : Option TagGroups
  fallback : Option Bool
  message : Option String
deriving DecidableEq

/-- Insertion-ordered deduplication, the behaviour of
[...new Set([...a, ...b])] in tags.ts line 58. -/
def jsSetDedup (l : List String) : List String :=
  l.foldl (fun acc x => if x ∈ acc then acc else acc ++ [x]) []

/-- existingTags of tags.ts line 58: deduplicated concatenation of
selectedTags and visibleTags. Used only inside the system instruction sent to
the model; the handler never filters its output against it. -/
def existingTagsOf (req : TagRequest) : List String :=
  jsSetDedup (req.selectedTags ++ req.visibleTags)

/-- Target tag count of tags.ts line 57: stage === 1 gives 3, anything else 5. -/
def requestedCount (stage : Option Nat) : Nat :=
  if stage == some 1 then 3 else 5

/-- Whether a request reaches the genAI.models.generateContent call in
tags.ts line 96: it must pass the required-field validation (line 45) and the
API key must be configured (line 50); every request that reaches the try
block invokes the Gateway unconditionally (there is no cache lookup in the
route). -/
def gatewayInvoked (apiKeyPresent : Bool) (req : TagRequest) : Bool :=
  !(strFalsy req.topic || strFalsy req.intent || strFalsy req.persona) && apiKeyPresent

/-- The POST /generate handler of tags.ts lines 36-160, as a function of the
configuration (API key present), the request body and the Gateway outcome.
Control flow mirrors the source: 400 on missing field; fallback JSON when no
key; inside try, validate each parsed category array, throw (caught below)
when the flattened list is empty, else respond with groups and flat tags;
the catch branch answers 200 with success=false, tags=[], fallback=true. -/
def generateHandler (apiKeyPresent : Bool) (req : TagRequest) (gw : GatewayOutcome) :
    TagGenResponse :=
  if strFalsy req.topic || strFalsy req.intent || strFalsy req.persona then
    { status := 400, success := false, tags := [], groups := none,
      fallback := none, message := some "Missing required fields" }
  else if !apiKeyPresent then
    { status := 200, success := false, tags := [], groups := none,
      fallback := some true, message := some "Gemini API not configured" }
  else
    match gw with
    | GatewayOutcome.err msg =>
      { status := 200, success := false, tags := [], groups := none,
        fallback := some true, message := some msg }
    | GatewayOutcome.ok parsed =>
      let groups : TagGroups :=
        { personaStyle := validateTags parsed.personaStyle
          addContext := validateTags parsed.addContext
          taskInstruction := validateTags parsed.taskInstruction
          formatConstraints := validateTags parsed.formatConstraints
          reasoningHelp := validateTags parsed.reasoningHelp }
      let allTags := groups.personaStyle ++ groups.addContext ++ groups.taskInstruction
        ++ groups.formatConstraints ++ groups.reasoningHelp
      if allTags.isEmpty then
        { status := 200, success := false, tags := [], groups := none,
          fallback := some true, message := some "No valid tags generated after validation" }
      else
        { status := 200, success := true, tags := allTags, groups := some groups,
          fallback := some false, message := none }

/-- The tags route module holds no mutable state between requests (its module
scope declares only constants), so a sequence of requests is handled
independently; the arrival time attached to each request exists only to state
temporal claims and is not consulted by the code. This counts how many
requests of a sequence invoke the Gateway. -/
def gatewayCallCount (apiKeyPresent : Bool) (reqs : List (TagRequest × Nat)) : Nat :=
  (reqs.filter (fun rt => gatewayInvoked apiKeyPresent rt.1)).length

/-- The FALLBACK_TAGS constant of tags.ts lines 12-34: static persona → intent
→ tag-list data, declared "for when AI fails or is unavailable" but never
referenced by the handler. -/
def FALLBACK_TAGS : List (String × List (String × List String)) :=
  [ ("Teacher",
      [ ("Generate Questions", ["Multiple Choice Questions", "Critical Thinking Tasks",
          "Real World Application", "Blooms Taxonomy Levels", "Include Answer Key"]),
        ("Create Explanation", ["Step By Step Guide", "Include Visual Aids",
          "Real Life Examples", "Common Student Mistakes", "Interactive Class Elements"]),
        ("Simplify Weak", ["Focus Core Concepts", "Use Visual Analogies",
          "Easy Practice Problems", "Build Student Confidence", "Step By Step Guide"]),
        ("Use Analogy", ["Everyday Life Analogy", "Sports Related Analogy",
          "Cooking Baking Analogy", "Nature Based Analogy", "Modern Tech Analogy"]),
        ("Latest Research", ["Key Research Findings", "Research Methodology Details",
          "Practical Classroom Implications", "Brief Research Summary",
          "Include Academic Citations"]) ]),
    ("Parents",
      [ ("Help Homework", ["Step By Step Guide", "Dont Solve Directly",
          "Ask Guiding Questions", "Offer Encouragement Words", "Check Child Understanding"]),
        ("Help Project", ["Brainstorming Session Ideas", "Required Materials List",
          "Project Timeline Plan", "Creative Project Ideas", "Safety Precautions Tips"]),
        ("Explain Simply", ["Explain Like Five", "Real World Examples",
          "No Complex Jargon", "Use Visual Aids", "Include Fun Facts"]),
        ("Find Resources", ["Educational Video Links", "Readable Article Links",
          "Learning Game Links", "Book Recommendations List", "Printable Worksheet Links"]),
        ("Play & Learn", ["Educational Game Ideas", "Outdoor Activity Ideas",
          "DIY Craft Project", "Home Science Experiment", "Interactive Storytelling Time"]) ]),
    ("Students",
      [ ("Homework Help", ["Explain Core Concept", "Give Helpful Hint",
          "Show Similar Example", "Step By Step Guide", "Check My Answer"]),
        ("Project Ideas", ["Creative Project Ideas", "Feasible For Student",
          "Unique Project Angle", "Science Fair Project", "Artistic Project Ideas"]),
        ("Learn Concept", ["Deep Dive Explanation", "Brief Topic Summary",
          "Key Learning Points", "Quiz Me Now", "Real World Examples"]),
        ("Exam Prep", ["Practice Exam Questions", "Flashcard Study Points",
          "One Page Summary", "Time Management Tips", "List Key Formulas"]),
        ("Clear Doubt", ["Simple Clear Explanation", "Use Simple Analogy",
          "Show Concrete Example", "Describe Visual Diagram", "Explain Why How"]) ]) ]

/-- Lookup into FALLBACK_TAGS by persona then intent. -/
def lookupFallback (persona intent : String) : Option (List String) :=
  (FALLBACK_TAGS.lookup persona).bind (fun m => m.lookup intent)

/-- Structured rewrite object as parsed from the model inside the analyze
route (gemini.ts schema lines 18-31). Each field is none when the model omits
it; JS distinguishes a present empty string from an absent field, so fields
are Options. -/
structure ParsedImproved where
  role : Option String
  context : Option String
  task : Option String
  exemplars : Option (List String)
  persona : Option String
  format : Option String
  tone : Option String
deriving DecidableEq

/-- The empty object produced by parsedResponse.improvedPrompt || {} in
gemini.ts line 121 when the model returned no improvedPrompt at all. -/
def emptyParsedImproved : ParsedImproved :=
  { role := none, context := none, task := none, exemplars := none,
    persona := none, format := none, tone := none }

/-- JS x || null on a string field: an absent field or an empty string
collapses to null, any other string is kept. -/
def jsOrNull : Option String → Option String
  | none => none
  | some s => if s = "" then none else some s

/-- The improvedPrompt object of the analyze response after the output
shaping of gemini.ts lines 123-134. task is a plain String because the
shaping always produces one. -/
structure ImprovedPromptOut where
  role : Option String
  context : Option String
  task : String
  exemplars : Option (List String)
  persona : Option String
  format : Option String
  tone : Option String
deriving DecidableEq

/-- Output shaping of gemini.ts lines 121-134: each detail field becomes the
model value or null (JS ||), task falls back to the original studentPrompt,
and exemplars || null keeps any present array (an empty array is truthy in
JS). -/
def shapeImprovedPrompt (studentPrompt : String) (parsedImproved : Option ParsedImproved) :
    ImprovedPromptOut :=
  let ip := parsedImproved.getD emptyParsedImproved
  { role := jsOrNull ip.role
    context := jsOrNull ip.context
    task := match ip.task with
            | none => studentPrompt
            | some s => if s = "" then studentPrompt else s
    exemplars := ip.exemplars
    persona := jsOrNull ip.persona
    format := jsOrNull ip.format
    tone := jsOrNull ip.tone }

/-- Whether the analyze request body passes the validation of gemini.ts line
47: studentPrompt present, a string, and not whitespace-only. -/
def analyzeValidates (studentPrompt : Option String) : Bool :=
  match studentPrompt with
  | none => false
  | some s => !(trimChars s.toList).isEmpty

/-- HTTP method of a route registration; the repository only registers POST
handlers. -/
inductive HttpMethod where
  | get
  | post
deriving DecidableEq

/-- The routes registered on the gemini router (gemini.ts line 36). -/
def geminiRouterRoutes : List (HttpMethod × String) := [(HttpMethod.post, "/analyze")]

/-- The routes registered on the tags router (tags.ts line 36). -/
def tagsRouterRoutes : List (HttpMethod × String) := [(HttpMethod.post, "/generate")]

/-- The router mounts performed by the assembled Express app in
server/index.ts lines 10-15: express.json(), then the gemini router at
/api/gemini, then static assets. Only the gemini router is mounted; no other
app.use registers a router. -/
def appMounts : List (String × List (HttpMethod × String)) :=
  [("/api/gemini", geminiRouterRoutes)]

/-- Whether the first list starts with the second. -/
def listStartsWith : List Char → List Char → Bool
  | _, [] => true
  | [], _ :: _ => false
  | a :: as, b :: bs => a == b && listStartsWith as bs

/-- Express-style route resolution over the mounted routers: a mount matches
when the request path starts with the mount path and the remainder is a route
of the mounted router; the result is the matching mount path. Requests no
mount matches fall through to the static/404 handling. -/
def resolveRoute (mounts : List (String × List (HttpMethod × String)))
    (m : HttpMethod) (path : String) : Option String :=
  mounts.findSome? (fun mnt =>
    if listStartsWith path.toList mnt.1.toList
        && mnt.2.contains (m, String.mk (path.toList.drop mnt.1.toList.length)) then
      some mnt.1
    else none)

/-- TagItem of smart-tag.model / smart-tag.service: id, text, category and
the selected flag. The category is kept as a plain string. -/
structure TagItem where
  id : String
  text : String
  category : String
  selected : Bool
deriving DecidableEq

/-- One entry of the conflictRules table in smart-tag.service.ts lines
339-355. -/
structure ConflictRule where
  keywords : List String
  conflictsWith : List String
  message : String
deriving DecidableEq

/-- The static conflict-rule table of smart-tag.service.ts lines 339-355. -/
def conflictRules : List ConflictRule :=
  [ { keywords := ["short", "brief", "concise"],
      conflictsWith := ["detailed", "comprehensive", "in-depth", "thorough"],
      message := "These tags might conflict. We recommend choosing either short/brief OR detailed/comprehensive." },
    { keywords := ["simple", "basic", "easy"],
      conflictsWith := ["advanced", "complex", "technical"],
      message := "These tags might conflict. We recommend choosing either simple/easy OR advanced/technical." },
    { keywords := ["formal", "professional"],
      conflictsWith := ["casual", "friendly", "conversational"],
      message := "These tags might conflict. We recommend choosing either formal/professional OR casual/friendly." } ]

/-- JS String.prototype.includes on the character level. -/
def listIncludes : List Char → List Char → Bool
  | [], sub => sub.isEmpty
  | a :: t, sub => listStartsWith (a :: t) sub || listIncludes t sub

/-- JS toLowerCase on the character level. -/
def lowerChars (l : List Char) : List Char := l.map Char.toLower

/-- detectConflicts of smart-tag.service.ts lines 332-372: lower-case the
selected tag texts, then collect (in table order) the message of every rule
for which some text contains a keyword and some text contains a conflicting
keyword. The JS loop pushes each matching rule, so several rules can
contribute several warnings. -/
def detectConflicts (selectedTags : List TagItem) : List String :=
  let tagTexts := selectedTags.map (fun t => lowerChars t.text.toList)
  (conflictRules.filter (fun rule =>
      tagTexts.any (fun text => rule.keywords.any (fun kw => listIncludes text kw.toList))
      && tagTexts.any (fun text =>
          rule.conflictsWith.any (fun kw => listIncludes text kw.toList)))).map
    (fun rule => rule.message)

/-- The slice of SmartTagService state touched by toggleTagSelection:
availableTags, selectedTags, the error signal (which doubles as the
user-visible warning channel) and the conflictWarnings signal. -/
structure ServiceState where
  availableTags : List TagItem
  selectedTags : List TagItem
  error : Option String
  conflictWarnings : List String
deriving DecidableEq

/-- toggleTagSelection of smart-tag.service.ts lines 293-329. Unknown ids are
ignored; deselecting removes the tag and recomputes conflicts; selecting with
5 tags already selected only sets the warning message; otherwise the tag is
appended, the error cleared and conflicts recomputed. -/
def toggleTagSelection (st : ServiceState) (tagId : String) : ServiceState :=
  match st.availableTags.find? (fun t => t.id == tagId) with
  | none => st
  | some tag =>
    if st.selectedTags.any (fun t => t.id == tagId) then
      let updated := st.availableTags.map
        (fun t => if t.id == tagId then { t with selected := false } else t)
      let newSelected := st.selectedTags.filter (fun t => !(t.id == tagId))
      { availableTags := updated, selectedTags := newSelected,
        error := st.error, conflictWarnings := detectConflicts newSelected }
    else if st.selectedTags.length ≥ 5 then
      { st with error := some "Maximum 5 tags can be selected" }
    else
      let updated := st.availableTags.map
        (fun t => if t.id == tagId then { t with selected := true } else t)
      let newSelected := st.selectedTags ++ [{ tag with selected := true }]
      { availableTags := updated, selectedTags := newSelected,
        error := none, conflictWarnings := detectConflicts newSelected }

/-- The deterministic zero-tag default prompt of smart-tag.service.ts line
387. -/
def serviceDefaultPrompt (topic : String) : String :=
  "Explain \"" ++ topic ++ "\" like a class teacher, using simple words with short key points that are easy to understand."

/-- generatePrompt of smart-tag.service.ts lines 375-430, as a pure function
of the state it reads. The error path (missing topic or intent) yields none;
zero selected tags yield the fixed default sentence; otherwise the role line,
the numbered requirements in selection order and the fixed closing sentence
are assembled. Persistence side effects (recent prompts, presets) do not
touch the produced text. -/
def generatePrompt (topic : String) (intent : Option String) (selectedTags : List TagItem) :
    Option String :=
  if topic == "" || strFalsy intent then none
  else if selectedTags.isEmpty then some (serviceDefaultPrompt topic)
  else
    let roleInstruction :=
      match selectedTags.find? (fun t => t.category == "role") with
      | some t => "Act as: " ++ t.text
      | none => "Act as a friendly school teacher."
    let requirements := selectedTags.enum.map
      (fun p => toString (p.1 + 1) ++ ". " ++ p.2.text)
    some (roleInstruction ++ "\n\nTopic: \"" ++ topic ++ "\"\n\nRequirements:\n"
      ++ String.intercalate "\n" requirements
      ++ "\n\nPlease provide a clear, student-friendly explanation.")

/-- The CONFLICT_PAIRS table of the prompt-builder component (lines 16-19 of
prompt-builder.component.ts). -/
def CONFLICT_PAIRS : List (String × String) :=
  [("Brief Topic Summary", "Deep Dive Explanation"),
   ("Step By Step Guide", "Brief Topic Summary")]

/-- conflictWarning of prompt-builder.component.ts lines 89-98: the warning of
the first pair whose two tags are both selected, if any. -/
def conflictWarning (selectedSmartTags : List String) : Option String :=
  CONFLICT_PAIRS.findSome? (fun pair =>
    if selectedSmartTags.contains pair.1 && selectedSmartTags.contains pair.2 then
      some ("⚠️ These suggestions may conflict. You might want to choose either \""
        ++ pair.1 ++ "\" OR \"" ++ pair.2 ++ "\".")
    else none)

/-- The slice of PromptBuilderComponent state read or written by
toggleSmartTag and assembledPrompt (prompt-builder.component.ts lines 53-126,
218-234). -/
structure BuilderState where
  activePersona : String
  activeIntent : String
  debouncedTopic : String
  availableSmartTags : List String
  selectedSmartTags : List String
  revealStage : Nat
  bannerMessage : Option String
deriving DecidableEq

/-- Result of toggleSmartTag: the updated component state plus whether the
asynchronous stage-2 fetch (getNext2Tags) was triggered. -/
structure ToggleResult where
  state : BuilderState
  fetchNextRequested : Bool
deriving DecidableEq

/-- toggleSmartTag of prompt-builder.component.ts lines 218-234: deselect by
filtering; selecting with 8 already selected returns without any state change
or message; otherwise append, and on reveal stage 1 trigger the follow-up
fetch and move to stage 2. -/
def toggleSmartTag (st : BuilderState) (tag : String) : ToggleResult :=
  let current := st.selectedSmartTags
  if current.contains tag then
    { state := { st with selectedSmartTags := current.filter (fun t => !(t == tag)) },
      fetchNextRequested := false }
  else if current.length ≥ 8 then
    { state := st, fetchNextRequested := false }
  else
    let st1 := { st with selectedSmartTags := current ++ [tag] }
    if st.revealStage == 1 then
      { state := { st1 with revealStage := 2 }, fetchNextRequested := true }
    else
      { state := st1, fetchNextRequested := false }

/-- assembledPrompt of prompt-builder.component.ts lines 100-126: empty when
the debounced topic is missing or shorter than 4 characters, otherwise the
persona/intent/topic block, the requirements block (deduplicated selected
tags, or the two fixed default requirement lines) and the fixed closing
instruction, joined by blank lines. -/
def assembledPrompt (st : BuilderState) : String :=
  let currentTopic := st.debouncedTopic
  if currentTopic == "" || currentTopic.length < 4 then ""
  else
    let core := ["User Persona: " ++ st.activePersona,
                 "User Intent: " ++ st.activeIntent,
                 "Topic: " ++ currentTopic]
    let reqPart :=
      if st.selectedSmartTags.length > 0 then
        "Key Requirements:\n- " ++ String.intercalate "\n- " (jsSetDedup st.selectedSmartTags)
      else
        "Key Requirements:\n- Explain the concept clearly and simply.\n- Ensure the content is appropriate for a "
          ++ st.activePersona ++ "."
    String.intercalate "\n\n" (core ++ [reqPart,
      "Output Instruction: Please generate a response that directly addresses the topic and intent, strictly adhering to the requirements above."])

/-- Property used to state claim C10: the shaped output field equals the
model-provided value when one is present and nonempty, and null otherwise. -/
def nullDefaulted (modelVal outVal : Option String) : Prop :=
  (∀ s, modelVal = some s → s ≠ "" → outVal = some s)
  ∧ ((modelVal = none ∨ modelVal = some "") → outVal = none)

/-- A well-formed tag-generation request, used as concrete input in several
theorems. -/
def reqPhotosynthesis : TagRequest :=
  { topic := some "Photosynthesis for class 10", intent := some "Learn Concept",
    persona := some "Students", stage := some 1, selectedTags := [], visibleTags := [] }

/-- A request whose required topic field is absent. -/
def reqMissingTopic : TagRequest :=
  { topic := none, intent := some "Learn Concept", persona := some "Students",
    stage := some 1, selectedTags := [], visibleTags := [] }

/-- A stage-2 request that already carries the tag "Step By Step Guide". -/
def reqWithExisting : TagRequest :=
  { topic := some "Fractions", intent := some "Learn Concept", persona := some "Students",
    stage := some 2, selectedTags := ["Step By Step Guide"], visibleTags := [] }

/-- A parsed model output repeating the existing tag of reqWithExisting. -/
def gwRepeatExisting : GatewayOutcome :=
  GatewayOutcome.ok
    { personaStyle := some [], addContext := some [],
      taskInstruction := some ["Step By Step Guide"], formatConstraints := some [],
      reasoningHelp := some [] }

/-- A parsed model output whose only candidate has a trailing exclamation
mark (3 words, so it survives the word-count filter). -/
def gwPunct : GatewayOutcome :=
  GatewayOutcome.ok
    { personaStyle := some [], addContext := some [],
      taskInstruction := some [], formatConstraints := some ["Give Bullet Points!"],
      reasoningHelp := some [] }

/-- A tag whose text contains the keyword brief of the first conflict rule
and the keyword simple of the second. -/
def tagBriefSimple : TagItem :=
  { id := "cx-1", text := "Keep it brief and simple", category := "tone", selected := true }

/-- A tag whose text contains the conflicting keyword comprehensive of the
first rule and advanced of the second. -/
def tagCompAdvanced : TagItem :=
  { id := "cx-2", text := "Comprehensive advanced detail", category := "thinking", selected := true }

/-- A tag matching only the keyword side of the first conflict rule. -/
def tagBrief : TagItem :=
  { id := "br-1", text := "Brief Topic Summary", category := "thinking", selected := true }

/-- A tag matching only the conflictsWith side of the first conflict rule. -/
def tagComprehensive : TagItem :=
  { id := "co-1", text := "Comprehensive Full Coverage", category := "thinking", selected := true }

/-- Service state with tagBriefSimple selected and tagCompAdvanced still
available, about to be selected. -/
def stDoubleRule : ServiceState :=
  { availableTags := [tagBriefSimple, { tagCompAdvanced with selected := false }],
    selectedTags := [tagBriefSimple], error := none, conflictWarnings := [] }

/-- Service state with five tags selected and a sixth one available. -/
def stServiceFull : ServiceState :=
  { availableTags :=
      [ { id := "s1", text := "Act as a friendly study partner", category := "role", selected := true },
        { id := "s2", text := "Use simple bullet points", category := "output", selected := true },
        { id := "s3", text := "Explain the core concepts simply", category := "thinking", selected := true },
        { id := "s4", text := "Avoid complex jargon", category := "tone", selected := true },
        { id := "s5", text := "Student in class 10 studying this topic", category := "context", selected := true },
        { id := "s6", text := "Create a practice quiz with answers", category := "thinking", selected := false } ],
    selectedTags :=
      [ { id := "s1", text := "Act as a friendly study partner", category := "role", selected := true },
        { id := "s2", text := "Use simple bullet points", category := "output", selected := true },
        { id := "s3", text := "Explain the core concepts simply", category := "thinking", selected := true },
        { id := "s4", text := "Avoid complex jargon", category := "tone", selected := true },
        { id := "s5", text := "Student in class 10 studying this topic", category := "context", selected := true } ],
    error := none, conflictWarnings := [] }

/-- The sixth available tag of stServiceFull. -/
def tagSixth : TagItem :=
  { id := "s6", text := "Create a practice quiz with answers", category := "thinking", selected := false }

/-- Prompt-builder state with the 8-tag cap reached and a ninth tag still
available; no banner message is pending. -/
def stBuilderFull : BuilderState :=
  { activePersona := "Teacher", activeIntent := "Generate Questions",
    debouncedTopic := "Photosynthesis",
    availableSmartTags :=
      ["Multiple Choice Questions", "Critical Thinking Tasks", "Real World Application",
       "Blooms Taxonomy Levels", "Include Answer Key", "Mixed Difficulty Levels",
       "Full Topic Coverage", "Set Time Limit", "Extra Tag Nine"],
    selectedSmartTags :=
      ["Multiple Choice Questions", "Critical Thinking Tasks", "Real World Application",
       "Blooms Taxonomy Levels", "Include Answer Key", "Mixed Difficulty Levels",
       "Full Topic Coverage", "Set Time Limit"],
    revealStage := 2, bannerMessage := none }

/-- A concrete parsed improvedPrompt used to witness the analyze shaping
claim: empty role, present context and format, absent task. -/
def piWitness : ParsedImproved :=
  { role := some "", context := some "A class 10 biology student", task := none,
    exemplars := some [], persona := none, format := some "bullet points", tone := some "" }

/-- C1 counterexample: the tags route keeps no cache, so the same valid
request issued again one minute after the first still invokes the Gateway:
two identical requests produce two Gateway calls, not one. -/
theorem tags_route_repeat_request_invokes_gateway_again :
    gatewayCallCount true [(reqPhotosynthesis, 0), (reqPhotosynthesis, 60000)] = 2
    ∧ gatewayCallCount true [(reqPhotosynthesis, 0), (reqPhotosynthesis, 60000)] ≠ 1 := by
  decide

/-- C1 (amended): the tags route maintains no response cache: every request
that passes field validation with a configured key invokes the Gateway, so an
identical repeat request invokes it again whatever the time gap. -/
theorem tags_route_no_cache_every_valid_request_invokes_gateway
    (req : TagRequest) (t1 t2 : Nat) (h : gatewayInvoked true req = true) :
    gatewayCallCount true [(req, t1), (req, t2)] = 2 := by
  simp [gatewayCallCount, List.filter, h]

/-- C1 witness: the amended theorem evaluated on the concrete request with a
ten-minute gap. -/
theorem tags_route_no_cache_witness :
    gatewayCallCount true [(reqPhotosynthesis, 0), (reqPhotosynthesis, 600000)] = 2 :=
  tags_route_no_cache_every_valid_request_invokes_gateway reqPhotosynthesis 0 600000 (by decide)

/-- C2: evaluation of the two failure paths at a valid stage-1 request. Both
the missing-credential branch and the catch branch respond 200 with
fallback=true and a message, but with an EMPTY tags list, while the
FALLBACK_TAGS constant declared for exactly this situation holds a nonempty
static list for the persona/intent of the request and the requested count is
3; the static data is never wired into any failure response. -/
theorem tags_failure_paths_return_empty_tags_not_static_fallback :
    (generateHandler false reqPhotosynthesis (GatewayOutcome.err "unused")).tags = []
    ∧ (generateHandler false reqPhotosynthesis (GatewayOutcome.err "unused")).status = 200
    ∧ (generateHandler false reqPhotosynthesis (GatewayOutcome.err "unused")).fallback = some true
    ∧ (generateHandler false reqPhotosynthesis (GatewayOutcome.err "unused")).message
        = some "Gemini API not configured"
    ∧ (generateHandler true reqPhotosynthesis (GatewayOutcome.err "boom")).tags = []
    ∧ (generateHandler true reqPhotosynthesis (GatewayOutcome.err "boom")).fallback = some true
    ∧ lookupFallback "Students" "Learn Concept"
        = some ["Deep Dive Explanation", "Brief Topic Summary", "Key Learning Points",
                "Quiz Me Now", "Real World Examples"]
    ∧ requestedCount (some 1) = 3 := by
  decide

/-- C3: the tags route answers 400 exactly when topic, intent or persona is
missing (JS-falsy); a 400 never reaches the Gateway call; every other
response of the route carries status 200. -/
theorem tags_route_status_400_iff_missing_fields
    (k : Bool) (req : TagRequest) (gw : GatewayOutcome) :
    ((generateHandler k req gw).status = 400
      ↔ (strFalsy req.topic || strFalsy req.intent || strFalsy req.persona) = true)
    ∧ ((generateHandler k req gw).status = 400 → gatewayInvoked k req = false)
    ∧ ((generateHandler k req gw).status ≠ 400 → (generateHandler k req gw).status = 200) := by
  by_cases hm : (strFalsy req.topic || strFalsy req.intent || strFalsy req.persona) = true
  · refine ⟨by simp [generateHandler, hm], fun _ => by simp [gatewayInvoked, hm],
      fun hne => absurd (by simp [generateHandler, hm]) hne⟩
  · have hm' : (strFalsy req.topic || strFalsy req.intent || strFalsy req.persona) = false :=
      Bool.eq_false_iff.mpr hm
    cases gw with
    | err m => cases k <;> simp [generateHandler, hm']
    | ok p => cases k <;> simp [generateHandler, hm', apply_ite TagGenResponse.status]

/-- C3 witness: the theorem evaluated at a request with the topic absent. -/
theorem tags_route_status_400_witness :
    (generateHandler true reqMissingTopic (GatewayOutcome.err "x")).status = 400
    ∧ gatewayInvoked true reqMissingTopic = false := by
  have h := tags_route_status_400_iff_missing_fields true reqMissingTopic (GatewayOutcome.err "x")
  exact ⟨h.1.mpr (by decide), h.2.1 (h.1.mpr (by decide))⟩

/-- C6: the assembled Express app mounts only the gemini router, so a POST to
/api/tags/generate resolves to no mounted route and falls through to the
static/404 handling, although the tags router does define a POST /generate
handler that would match had the router been mounted at /api/tags; the
mounted gemini route /api/gemini/analyze does resolve. -/
theorem tags_generate_route_unreachable :
    resolveRoute appMounts HttpMethod.post "/api/tags/generate" = none
    ∧ (HttpMethod.post, "/generate") ∈ tagsRouterRoutes
    ∧ resolveRoute [("/api/tags", tagsRouterRoutes)] HttpMethod.post "/api/tags/generate"
        = some "/api/tags"
    ∧ resolveRoute appMounts HttpMethod.post "/api/gemini/analyze" = some "/api/gemini" := by
  decide

/-- C4 counterexample: a model output that repeats a caller-supplied existing
tag is returned verbatim in a successful response — the handler never filters
against existingTags (the tag even matches case-sensitively). -/
theorem tags_route_returns_tag_equal_to_existing_tag :
    (generateHandler true reqWithExisting gwRepeatExisting).success = true
    ∧ "Step By Step Guide" ∈ (generateHandler true reqWithExisting gwRepeatExisting).tags
    ∧ "Step By Step Guide" ∈ existingTagsOf reqWithExisting := by
  decide

/-- C4 (amended): the server performs no exclusion of existing tags — the
caller-supplied selectedTags and visibleTags only reach the system
instruction sent to the model, and the response is identical whatever these
two lists contain, given the same Gateway outcome. -/
theorem tags_route_ignores_existing_tags_in_output
    (k : Bool) (topic intent persona : Option String) (stage : Option Nat)
    (s1 v1 s2 v2 : List String) (gw : GatewayOutcome) :
    generateHandler k
      { topic := topic, intent := intent, persona := persona, stage := stage,
        selectedTags := s1, visibleTags := v1 } gw
    = generateHandler k
      { topic := topic, intent := intent, persona := persona, stage := stage,
        selectedTags := s2, visibleTags := v2 } gw := rfl

/-- Every tag surviving validateTags has its word count within [3,4]. -/
theorem mem_validateTags_wordCount (o : Option (List String)) (t : String)
    (ht : t ∈ validateTags o) : 3 ≤ jsWordCount t ∧ jsWordCount t ≤ 4 := by
  cases o with
  | none => cases ht
  | some ts =>
    have := List.of_mem_filter ht
    exact of_decide_eq_true this

/-- C5 counterexample: a successful response can carry a tag with trailing
punctuation — the server applies only the word-count filter, no punctuation
stripping, whitespace collapsing or title-casing. -/
theorem tags_route_success_can_carry_trailing_punctuation :
    (generateHandler true reqPhotosynthesis gwPunct).success = true
    ∧ (generateHandler true reqPhotosynthesis gwPunct).tags = ["Give Bullet Points!"]
    ∧ "Give Bullet Points!".toList.getLast? = some '!' := by
  decide

/-- C5 (amended): every string in the flattened tags of a successful response
has a whitespace-separated word count within [3,4]; no punctuation
normalization is guaranteed. -/
theorem tags_route_success_tags_word_count_in_bounds
    (k : Bool) (req : TagRequest) (gw : GatewayOutcome)
    (hs : (generateHandler k req gw).success = true) :
    ∀ t ∈ (generateHandler k req gw).tags, 3 ≤ jsWordCount t ∧ jsWordCount t ≤ 4 := by
  intro t ht
  by_cases hm : (strFalsy req.topic || strFalsy req.intent || strFalsy req.persona) = true
  · simp [generateHandler, hm] at hs
  · have hm' : (strFalsy req.topic || strFalsy req.intent || strFalsy req.persona) = false :=
      Bool.eq_false_iff.mpr hm
    cases k with
    | false => simp [generateHandler, hm'] at hs
    | true =>
      cases gw with
      | err m => simp [generateHandler, hm'] at hs
      | ok p =>
        simp only [generateHandler, hm', Bool.false_eq_true, if_false, Bool.not_true] at ht
        rcases Decidable.em ((validateTags p.personaStyle ++ validateTags p.addContext
            ++ validateTags p.taskInstruction ++ validateTags p.formatConstraints
            ++ validateTags p.reasoningHelp).isEmpty = true) with he | he
        · simp only [he, if_true] at ht
          cases ht
        · have he' := Bool.eq_false_iff.mpr he
          simp only [he', Bool.false_eq_true, if_false] at ht
          simp only [List.mem_append] at ht
          rcases ht with ((((h | h) | h) | h) | h) <;>
            exact mem_validateTags_wordCount _ _ h

/-- C5 witness: the amended theorem evaluated at the concrete punctuation
counter-input; the surviving tag indeed has 3 words. -/
theorem tags_route_word_count_witness :
    3 ≤ jsWordCount "Give Bullet Points!" ∧ jsWordCount "Give Bullet Points!" ≤ 4 :=
  tags_route_success_tags_word_count_in_bounds true reqPhotosynthesis gwPunct
    (by decide) "Give Bullet Points!" (by decide)

/-- C7 counterexample: in the prompt-builder variant (cap 8), attempting to
select a ninth tag is a SILENT no-op: the returned state is the input state
unchanged (selection and available tags untouched) and no user-visible
warning is raised — the banner message stays empty and no other message field
is set, contradicting the claim that a warning is raised. -/
theorem builder_cap_exceeded_is_silent_noop :
    toggleSmartTag stBuilderFull "Extra Tag Nine"
      = { state := stBuilderFull, fetchNextRequested := false }
    ∧ stBuilderFull.selectedSmartTags.length = 8
    ∧ "Extra Tag Nine" ∈ stBuilderFull.availableSmartTags
    ∧ ("Extra Tag Nine" ∈ stBuilderFull.selectedSmartTags → False)
    ∧ stBuilderFull.bannerMessage = none
    ∧ (toggleSmartTag stBuilderFull "Extra Tag Nine").state.bannerMessage = none := by
  decide

/-- C7 (amended): both variants enforce their cap and leave the selection and
available tags unchanged on an over-cap attempt; the 5-cap smart-tag service
raises the user-visible warning "Maximum 5 tags can be selected", while the
8-cap prompt-builder variant ignores the attempt silently; neither throws. -/
theorem selection_cap_enforced_both_variants :
    (∀ (st : ServiceState) (tagId : String) (tag : TagItem),
      st.availableTags.find? (fun t => t.id == tagId) = some tag →
      st.selectedTags.any (fun t => t.id == tagId) = false →
      5 ≤ st.selectedTags.length →
      (toggleTagSelection st tagId).selectedTags = st.selectedTags
      ∧ (toggleTagSelection st tagId).availableTags = st.availableTags
      ∧ (toggleTagSelection st tagId).error = some "Maximum 5 tags can be selected")
    ∧ (∀ (st : BuilderState) (tag : String),
      st.selectedSmartTags.contains tag = false →
      8 ≤ st.selectedSmartTags.length →
      toggleSmartTag st tag = { state := st, fetchNextRequested := false }) := by
  constructor
  · intro st tagId tag hfind hany hlen
    unfold toggleTagSelection
    rw [hfind]
    simp [hany, hlen]
  · intro st tag hcont hlen
    have hmem : tag ∉ st.selectedSmartTags := by simpa using hcont
    unfold toggleSmartTag
    simp [hmem, hlen]

/-- C7 witness: the amended theorem applied to a full 5-tag service state and
to the full 8-tag builder state. -/
theorem selection_cap_enforced_witness :
    ((toggleTagSelection stServiceFull "s6").selectedTags = stServiceFull.selectedTags
      ∧ (toggleTagSelection stServiceFull "s6").availableTags = stServiceFull.availableTags
      ∧ (toggleTagSelection stServiceFull "s6").error = some "Maximum 5 tags can be selected")
    ∧ toggleSmartTag stBuilderFull "Set A Timer"
        = { state := stBuilderFull, fetchNextRequested := false } :=
  ⟨selection_cap_enforced_both_variants.1 stServiceFull "s6" tagSixth
      (by decide) (by decide) (by decide),
    selection_cap_enforced_both_variants.2 stBuilderFull "Set A Timer"
      (by decide) (by decide)⟩

/-- C8: with zero selected tags the service emits the fixed deterministic
default sentence, which contains the topic verbatim as a substring; and both
assembly functions are pure, so identical inputs yield identical output
text. -/
theorem assembly_zero_tags_default_and_deterministic :
    (∀ (topic : String) (intent : Option String),
      topic ≠ "" → strFalsy intent = false →
      generatePrompt topic intent [] = some (serviceDefaultPrompt topic)
      ∧ topic.toList <:+: (serviceDefaultPrompt topic).toList)
    ∧ (∀ (topic : String) (intent : Option String) (tags : List TagItem),
        generatePrompt topic intent tags = generatePrompt topic intent tags)
    ∧ (∀ st : BuilderState, assembledPrompt st = assembledPrompt st) := by
  refine ⟨?_, fun _ _ _ => rfl, fun _ => rfl⟩
  intro topic intent htop hint
  have hbeq : (topic == "") = false := beq_eq_false_iff_ne.mpr htop
  constructor
  · simp [generatePrompt, hbeq, hint]
  · exact ⟨"Explain \"".toList,
      "\" like a class teacher, using simple words with short key points that are easy to understand.".toList,
      by simp [serviceDefaultPrompt]⟩

/-- C8 witness: the theorem applied to the topic Photosynthesis with a
present intent. -/
theorem assembly_zero_tags_default_witness :
    generatePrompt "Photosynthesis" (some "Learn Concept") []
      = some (serviceDefaultPrompt "Photosynthesis")
    ∧ "Photosynthesis".toList <:+: (serviceDefaultPrompt "Photosynthesis").toList :=
  assembly_zero_tags_default_and_deterministic.1 "Photosynthesis" (some "Learn Concept")
    (by decide) (by decide)

/-- C9 counterexample: a selection change producing tags that match BOTH the
brief/comprehensive rule and the simple/advanced rule surfaces the warnings
of both rules, not only the first matching rule: the service collects every
matching rule message. -/
theorem detect_conflicts_surfaces_all_matching_rules :
    (toggleTagSelection stDoubleRule "cx-2").conflictWarnings
      = ["These tags might conflict. We recommend choosing either short/brief OR detailed/comprehensive.",
         "These tags might conflict. We recommend choosing either simple/easy OR advanced/technical."]
    ∧ (toggleTagSelection stDoubleRule "cx-2").conflictWarnings.length = 2 := by
  decide

/-- C9 (amended): every effective toggle (deselect, or select below the cap)
recomputes the conflict warnings from the new selection; the service surfaces
ALL matching rules in table order, so a selection matching only the
brief-versus-comprehensive rule yields exactly one warning, and either tag
alone yields none (deselection clears the warning). -/
theorem conflicts_recomputed_and_single_warning_for_first_rule :
    (∀ (st : ServiceState) (tagId : String) (tag : TagItem),
      st.availableTags.find? (fun t => t.id == tagId) = some tag →
      (st.selectedTags.any (fun t => t.id == tagId) = true ∨ st.selectedTags.length < 5) →
      (toggleTagSelection st tagId).conflictWarnings
        = detectConflicts (toggleTagSelection st tagId).selectedTags)
    ∧ detectConflicts [tagBrief, tagComprehensive]
        = ["These tags might conflict. We recommend choosing either short/brief OR detailed/comprehensive."]
    ∧ detectConflicts [tagBrief] = []
    ∧ detectConflicts [tagComprehensive] = [] := by
  refine ⟨?_, by decide, by decide, by decide⟩
  intro st tagId tag hfind hok
  unfold toggleTagSelection
  rw [hfind]
  by_cases hany : st.selectedTags.any (fun t => t.id == tagId) = true
  · simp [hany]
  · have hany' : st.selectedTags.any (fun t => t.id == tagId) = false :=
      Bool.eq_false_iff.mpr hany
    have hlt : st.selectedTags.length < 5 := by
      rcases hok with h | h
      · exact absurd h hany
      · exact h
    have hge : ¬ st.selectedTags.length ≥ 5 := by omega
    simp [hany', hge]

/-- C9 witness: the recompute clause of the theorem applied to selecting the
second conflicting tag of the concrete double-rule state. -/
theorem conflicts_recomputed_witness :
    (toggleTagSelection stDoubleRule "cx-2").conflictWarnings
      = detectConflicts (toggleTagSelection stDoubleRule "cx-2").selectedTags :=
  conflicts_recomputed_and_single_warning_for_first_rule.1 stDoubleRule "cx-2"
    { tagCompAdvanced with selected := false } (by decide) (Or.inr (by decide))

/-- Helper for C10: jsOrNull realises the null-or-value property of
nullDefaulted. -/
theorem nullDefaulted_jsOrNull (mv : Option String) : nullDefaulted mv (jsOrNull mv) := by
  constructor
  · intro s hs hne
    rw [hs]
    simp [jsOrNull, hne]
  · rintro (h | h) <;> simp [h, jsOrNull]

/-- C10: after the analyze output shaping, each detail field (role, context,
persona, format, tone) carries the model value when present and nonempty and
null otherwise, exemplars passes through unchanged, and task is the model
task when provided and nonempty, otherwise the original studentPrompt — and
is never empty given that the request passed validation. -/
theorem analyze_shaping_fields_null_or_value_task_nonempty
    (sp : String) (pi : Option ParsedImproved)
    (hv : analyzeValidates (some sp) = true) :
    nullDefaulted (pi.getD emptyParsedImproved).role (shapeImprovedPrompt sp pi).role
    ∧ nullDefaulted (pi.getD emptyParsedImproved).context (shapeImprovedPrompt sp pi).context
    ∧ nullDefaulted (pi.getD emptyParsedImproved).persona (shapeImprovedPrompt sp pi).persona
    ∧ nullDefaulted (pi.getD emptyParsedImproved).format (shapeImprovedPrompt sp pi).format
    ∧ nullDefaulted (pi.getD emptyParsedImproved).tone (shapeImprovedPrompt sp pi).tone
    ∧ (shapeImprovedPrompt sp pi).exemplars = (pi.getD emptyParsedImproved).exemplars
    ∧ (∀ s, (pi.getD emptyParsedImproved).task = some s → s ≠ "" →
        (shapeImprovedPrompt sp pi).task = s)
    ∧ (((pi.getD emptyParsedImproved).task = none ∨ (pi.getD emptyParsedImproved).task = some "")
        → (shapeImprovedPrompt sp pi).task = sp)
    ∧ (shapeImprovedPrompt sp pi).task ≠ "" := by
  have hsp : sp ≠ "" := by
    intro h
    subst h
    exact absurd hv (by decide)
  refine ⟨nullDefaulted_jsOrNull _, nullDefaulted_jsOrNull _, nullDefaulted_jsOrNull _,
    nullDefaulted_jsOrNull _, nullDefaulted_jsOrNull _, rfl, ?_, ?_, ?_⟩
  · intro s hs hne
    simp [shapeImprovedPrompt, hs, hne]
  · rintro (h | h) <;> simp [shapeImprovedPrompt, h]
  · rcases hip : (pi.getD emptyParsedImproved).task with _ | s
    · simp [shapeImprovedPrompt, hip, hsp]
    · by_cases hse : s = ""
      · simp [shapeImprovedPrompt, hip, hse, hsp]
      · simp [shapeImprovedPrompt, hip, hse]

/-- C10 witness: the theorem evaluated at a nonempty prompt and a model
output with an empty role, a present context and an absent task. -/
theorem analyze_shaping_witness :
    (shapeImprovedPrompt "Explain photosynthesis" (some piWitness)).task = "Explain photosynthesis"
    ∧ (shapeImprovedPrompt "Explain photosynthesis" (some piWitness)).role = none
    ∧ (shapeImprovedPrompt "Explain photosynthesis" (some piWitness)).context
        = some "A class 10 biology student"
    ∧ (shapeImprovedPrompt "Explain photosynthesis" (some piWitness)).task ≠ "" := by
  obtain ⟨h1, h2, _, _, _, _, _, h8, h9⟩ :=
    analyze_shaping_fields_null_or_value_task_nonempty "Explain photosynthesis"
      (some piWitness) (by decide)
  exact ⟨h8 (Or.inl rfl), h1.2 (Or.inr rfl), h2.1 "A class 10 biology student" rfl (by decide), h9⟩
